import Mathlib

/-!
Shallow embedding of the pennywise transaction pipeline
(`backend/app/services/sms_parser.py`, `backup_service.py`, `sms_service.py`,
`transaction_service.py`, and the pydantic models in `app/models.py`).

External effects are made explicit:
* the ambient clock (`datetime.utcnow()`) is passed as a `DateTime` argument;
* the external classifier call is an explicit outcome value
  (`GeminiOutcome` / `GeminiBatchOutcome`): the call either raises, returns
  empty text, returns unparseable text, or returns parsed JSON data;
* the document store is a Lean list of records, and store operations are
  pure functions on it.
-/

namespace Pennywise

/-- Enumeration `TransactionType` from `app/models.py`. -/
inductive TransactionType where
  | credit
  | debit
  | payment
  | transfer
  | spent
  | received
deriving DecidableEq, Repr

/-- Enumeration `PaymentMethod` from `app/models.py`. -/
inductive PaymentMethod where
  | upi
  | card
  | neft
  | imps
  | rtgs
  | cash
  | wallet
deriving DecidableEq, Repr

/-- A naive `datetime` value (the code only ever compares and stores them;
timezone offsets parsed from ISO strings are dropped by this model). -/
structure DateTime where
  year : Nat
  month : Nat
  day : Nat
  hour : Nat
  minute : Nat
  second : Nat
deriving DecidableEq, Repr

/-- Injective-enough linearisation of a (well-formed) `DateTime`, used to model
Python `datetime` comparison (lexicographic on the six components). -/
def DateTime.key (d : DateTime) : Nat :=
  ((((d.year * 13 + d.month) * 32 + d.day) * 24 + d.hour) * 60 + d.minute) * 60 + d.second

/-- Model of `datetime` ordering (`a <= b`). -/
def dateLe (a b : DateTime) : Bool :=
  decide (a.key ≤ b.key)

/-- ASCII lower-casing of one character (model of `str.lower` per character;
the strings the code lower-cases are ASCII vocabulary words). -/
def lowerChar (c : Char) : Char :=
  if 65 ≤ c.toNat ∧ c.toNat ≤ 90 then Char.ofNat (c.toNat + 32) else c

/-- Model of Python `str.lower` (ASCII). -/
def str_lower (s : String) : String :=
  ⟨s.data.map lowerChar⟩

/-- Model of `date_str.replace("Z", "+00:00")`: every occurrence of the
one-character pattern is replaced. -/
def replace_Z_offset (s : String) : String :=
  ⟨s.data.foldr
    (fun c acc => if c = 'Z' then '+' :: '0' :: '0' :: ':' :: '0' :: '0' :: acc
                  else c :: acc) []⟩

/-- One decimal digit of a character. -/
def digitVal (c : Char) : Option Nat :=
  if 48 ≤ c.toNat ∧ c.toNat ≤ 57 then some (c.toNat - 48) else none

/-- Two-digit decimal number. -/
def twoDigits (a b : Char) : Option Nat :=
  match digitVal a, digitVal b with
  | some x, some y => some (10 * x + y)
  | _, _ => none

/-- Four-digit decimal number. -/
def fourDigits (a b c d : Char) : Option Nat :=
  match twoDigits a b, twoDigits c d with
  | some x, some y => some (100 * x + y)
  | _, _ => none

/-- Day count of a month (proleptic Gregorian), as Python `datetime` validates. -/
def daysInMonth (y m : Nat) : Nat :=
  if m = 2 then (if (y % 4 = 0 ∧ y % 100 ≠ 0) ∨ y % 400 = 0 then 29 else 28)
  else if m = 4 ∨ m = 6 ∨ m = 9 ∨ m = 11 then 30 else 31

/-- Range-checked `DateTime` construction, as Python `datetime` validates. -/
def mkDateTime (y mo d h mi s : Nat) : Option DateTime :=
  if 1 ≤ y ∧ y ≤ 9999 ∧ 1 ≤ mo ∧ mo ≤ 12 ∧ 1 ≤ d ∧ d ≤ daysInMonth y mo
     ∧ h ≤ 23 ∧ mi ≤ 59 ∧ s ≤ 59
  then some ⟨y, mo, d, h, mi, s⟩ else none

/-- Model of Python `datetime.fromisoformat`, restricted to the shapes the code
relies on: `YYYY-MM-DD`, optionally followed by a `T` or space separator and
`HH:MM:SS`, optionally followed by a `+HH:MM` / `-HH:MM` offset (the offset is
validated and then dropped; everything else fails to parse). -/
def fromisoformat (s : String) : Option DateTime :=
  match s.toList with
  | [y1, y2, y3, y4, '-', m1, m2, '-', d1, d2] =>
      match fourDigits y1 y2 y3 y4, twoDigits m1 m2, twoDigits d1 d2 with
      | some y, some mo, some d => mkDateTime y mo d 0 0 0
      | _, _, _ => none
  | [y1, y2, y3, y4, '-', m1, m2, '-', d1, d2, sep, h1, h2, ':', n1, n2, ':', s1, s2] =>
      if sep = 'T' ∨ sep = ' ' then
        match fourDigits y1 y2 y3 y4, twoDigits m1 m2, twoDigits d1 d2,
              twoDigits h1 h2, twoDigits n1 n2, twoDigits s1 s2 with
        | some y, some mo, some d, some h, some mi, some sc => mkDateTime y mo d h mi sc
        | _, _, _, _, _, _ => none
      else none
  | [y1, y2, y3, y4, '-', m1, m2, '-', d1, d2, sep, h1, h2, ':', n1, n2, ':', s1, s2,
     sgn, o1, o2, ':', o3, o4] =>
      if (sep = 'T' ∨ sep = ' ') ∧ (sgn = '+' ∨ sgn = '-') then
        match fourDigits y1 y2 y3 y4, twoDigits m1 m2, twoDigits d1 d2,
              twoDigits h1 h2, twoDigits n1 n2, twoDigits s1 s2,
              twoDigits o1 o2, twoDigits o3 o4 with
        | some y, some mo, some d, some h, some mi, some sc, some oh, some om =>
            if oh ≤ 23 ∧ om ≤ 59 then mkDateTime y mo d h mi sc else none
        | _, _, _, _, _, _, _, _ => none
      else none
  | _ => none

/-- `SMSParser._parse_date_from_gemini`: replace `Z` with `+00:00`, try
`fromisoformat`, and fall back to the current time on any parse failure
(the bare `except` makes this total). -/
def parse_date_from_gemini (date_str : String) (now : DateTime) : DateTime :=
  match fromisoformat (replace_Z_offset date_str) with
  | some d => d
  | none => now

/-- `SMSParser._convert_transaction_type`: case-insensitive exact lookup. -/
def convert_transaction_type (s : String) : Option TransactionType :=
  match str_lower s with
  | "credit" => some .credit
  | "debit" => some .debit
  | "payment" => some .payment
  | "spent" => some .spent
  | "received" => some .received
  | "transfer" => some .transfer
  | _ => none

/-- `SMSParser._convert_payment_method`: case-insensitive exact lookup. -/
def convert_payment_method (s : String) : Option PaymentMethod :=
  match str_lower s with
  | "upi" => some .upi
  | "card" => some .card
  | "neft" => some .neft
  | "imps" => some .imps
  | "rtgs" => some .rtgs
  | "cash" => some .cash
  | "wallet" => some .wallet
  | _ => none

/-- The JSON object the classifier returns, after `json.loads` succeeds.
Every field is optional: `none` models an absent key.  Numeric fields are
modelled as rationals (the claims under study do not depend on binary
floating-point rounding). -/
structure ParsedData where
  is_transaction : Option Bool := none
  transaction_type : Option String := none
  amount : Option ℚ := none
  currency : Option String := none
  merchant : Option String := none
  transaction_date : Option String := none
  reference_number : Option String := none
  account_number : Option String := none
  card_number : Option String := none
  payment_method : Option String := none
  remarks : Option String := none
  is_failed : Option Bool := none
  confidence : Option ℚ := none
  reason : Option String := none
deriving DecidableEq, Repr

/-- The transaction-candidate dictionary both parser paths return
(`process_sms_intelligently` adds two detection fields on top, see
`SmsCandidate`). -/
structure Candidate where
  transaction_type : TransactionType
  amount : ℚ
  currency : String
  merchant : Option String
  transaction_date : DateTime
  reference_number : Option String
  account_number : Option String
  card_number : Option String
  payment_method : Option PaymentMethod
  remarks : Option String
  is_failed : Bool
deriving DecidableEq, Repr

/-- The candidate fields shared by the single-SMS and batch paths
(lines 203-217 and 280-292 of `sms_parser.py`).  `now` stands for
`datetime.utcnow()`; the code's dead re-check `if not transaction_date`
can never fire because `_parse_date_from_gemini` always returns a date. -/
def buildCandidate (d : ParsedData) (ty : TransactionType) (a : ℚ) (now : DateTime) :
    Candidate :=
  { transaction_type := ty
    amount := a
    currency := d.currency.getD "INR"
    merchant := d.merchant
    transaction_date := parse_date_from_gemini (d.transaction_date.getD "") now
    reference_number := d.reference_number
    account_number := d.account_number
    card_number := d.card_number
    payment_method := convert_payment_method (d.payment_method.getD "")
    remarks := d.remarks
    is_failed := d.is_failed.getD false }

/-- Result dictionary of `process_sms_intelligently`: the candidate fields
plus `detection_confidence` / `detection_reason`. -/
structure SmsCandidate where
  cand : Candidate
  detection_confidence : ℚ
  detection_reason : String
deriving DecidableEq, Repr

/-- Outcome of the external single-message classifier call, as observed by
`process_sms_intelligently`: the awaited call raises (network/timeout/...),
returns empty text, returns text that fails `json.loads`, or returns parsed
JSON data. -/
inductive GeminiOutcome where
  | failure
  | emptyText
  | unparseable
  | parsed (d : ParsedData)
deriving DecidableEq, Repr

/-- `SMSParser.process_sms_intelligently` (`sms_parser.py` 147-226), as a
function of the classifier-call outcome and the current time.  Note that the
`except Exception` at lines 224-226 turns a failing classifier call into the
same `None` that non-transaction messages produce. -/
def process_sms_intelligently (o : GeminiOutcome) (now : DateTime) :
    Option SmsCandidate :=
  match o with
  | .failure => none
  | .emptyText => none
  | .unparseable => none
  | .parsed d =>
      if d.is_transaction.getD false = false then none
      else
        match d.amount with
        | none => none
        | some a =>
            match convert_transaction_type (d.transaction_type.getD "") with
            | none => none
            | some ty =>
                some { cand := buildCandidate d ty a now
                       detection_confidence := d.confidence.getD 0
                       detection_reason := d.reason.getD "Unknown" }

/-- Outcome of the external batch classifier call, as observed by
`parse_backup_file_with_gemini`. -/
inductive GeminiBatchOutcome where
  | failure
  | emptyText
  | unparseable
  | notAList
  | parsed (entries : List ParsedData)
deriving DecidableEq, Repr

/-- One iteration of the validation loop in `parse_backup_file_with_gemini`
(`sms_parser.py` 262-292): skip falsy (empty) entries, entries without an
`amount` key, and entries whose transaction type does not map. -/
def parse_backup_entry (now : DateTime) (e : ParsedData) : Option Candidate :=
  if e = ({} : ParsedData) then none
  else
    match e.amount with
    | none => none
    | some a =>
        match convert_transaction_type (e.transaction_type.getD "") with
        | none => none
        | some ty => some (buildCandidate e ty a now)

/-- `SMSParser.parse_backup_file_with_gemini` (`sms_parser.py` 228-303): every
failure mode yields `[]`; a parsed JSON array is filtered entry by entry. -/
def parse_backup_file_with_gemini (o : GeminiBatchOutcome) (now : DateTime) :
    List Candidate :=
  match o with
  | .parsed entries => entries.filterMap (parse_backup_entry now)
  | _ => []

/-- Persisted `Transaction` document (`app/models.py`). `id` models the
store-assigned ObjectId. -/
structure Tx where
  id : Nat
  user_id : String
  transaction_type : TransactionType
  amount : ℚ
  currency : String
  merchant : Option String
  category : Option String
  transaction_date : DateTime
  reference_number : Option String
  account_number : Option String
  card_number : Option String
  payment_method : Option PaymentMethod
  remarks : Option String
  tags : List String
  is_failed : Bool
  is_recurring : Bool
  created_at : DateTime
  updated_at : DateTime
deriving DecidableEq, Repr

/-- `Transaction.validate_reference_number`: a truthy (non-empty) reference
must match `^[A-Za-z0-9]+$`; absent or empty references pass unchecked. -/
def validate_reference_number (r : Option String) : Bool :=
  match r with
  | some s => if s = "" then true else s.data.all (fun c =>
      decide ((65 ≤ c.toNat ∧ c.toNat ≤ 90) ∨ (97 ≤ c.toNat ∧ c.toNat ≤ 122)
        ∨ (48 ≤ c.toNat ∧ c.toNat ≤ 57)))
  | none => true

/-- `TransactionService.create_transaction` (`transaction_service.py` 58-75):
pydantic validation of the candidate (`validate_amount` rejects `amount <= 0`,
`validate_reference_number` as above); on success the document is inserted
with defaulted `category`/`tags`/flags and both timestamps set to now.  Any
validation error is caught and turned into `None`.  The post-insert
auto-categorisation side effect only touches `category` and is irrelevant to
the claims proved here. -/
def create_transaction (uid : String) (newId : Nat) (now : DateTime)
    (c : Candidate) : Option Tx :=
  if 0 < c.amount ∧ validate_reference_number c.reference_number then
    some { id := newId
           user_id := uid
           transaction_type := c.transaction_type
           amount := c.amount
           currency := c.currency
           merchant := c.merchant
           category := none
           transaction_date := c.transaction_date
           reference_number := c.reference_number
           account_number := c.account_number
           card_number := c.card_number
           payment_method := c.payment_method
           remarks := c.remarks
           tags := []
           is_failed := c.is_failed
           is_recurring := false
           created_at := now
           updated_at := now }
  else none

/-- Entry of the `created_transactions` list built by `process_backup_file`. -/
structure CreatedRef where
  id : Nat
  amount : ℚ
  merchant : Option String
  transaction_type : TransactionType
  transaction_date : DateTime
deriving DecidableEq, Repr

/-- Result record of `BackupService.process_backup_file`.  An `errors` entry
models the formatted string `"Failed to create transaction: amount - merchant"`
by the pair of values interpolated into it. -/
structure BackupResult where
  success : Bool
  transactions_found : Nat
  transactions_created : Nat
  created_transactions : List CreatedRef
  errors : List (ℚ × Option String)
deriving DecidableEq, Repr

/-- `BackupService.process_backup_file` (`backup_service.py` 20-100), from the
point where the decoded file content has been handed to the batch classifier.
Store-assigned ids are out of scope of the claims and modelled as `0`. -/
def process_backup_file (uid : String) (now : DateTime) (o : GeminiBatchOutcome) :
    BackupResult :=
  let tds := parse_backup_file_with_gemini o now
  if tds.isEmpty then
    { success := true
      transactions_found := 0
      transactions_created := 0
      created_transactions := []
      errors := [] }
  else
    let r := tds.foldl
      (fun (acc : List CreatedRef × List (ℚ × Option String)) (c : Candidate) =>
        match create_transaction uid 0 now c with
        | some t =>
            (acc.1 ++ [⟨t.id, t.amount, t.merchant, t.transaction_type, t.transaction_date⟩],
             acc.2)
        | none => (acc.1, acc.2 ++ [(c.amount, c.merchant)]))
      ([], [])
    { success := true
      transactions_found := tds.length
      transactions_created := r.1.length
      created_transactions := r.1
      errors := r.2 }

/-- `SMSService.process_sms_for_transactions` reduced to the transaction it
derives (`sms_service.py` 77-116): classify the message, then persist the
candidate through `create_transaction` (the extra `detection_*` keys in the
passed dictionary are ignored by the pydantic model). -/
def sms_to_transaction (uid : String) (newId : Nat) (o : GeminiOutcome)
    (now : DateTime) : Option Tx :=
  match process_sms_intelligently o now with
  | none => none
  | some r => create_transaction uid newId now r.cand

/-- Persisted `SMSMessage` document (`app/models.py`); `parsed` is the
consumed flag. -/
structure SmsMessage where
  id : Nat
  user_id : String
  sender : String
  message_text : String
  parsed : Bool
deriving DecidableEq, Repr

/-- State of one source message: the stored document plus how many
transactions have been created referencing it. -/
structure IngestState where
  msg : SmsMessage
  txCount : Nat
deriving DecidableEq, Repr

/-- `SMSService.process_sms_for_transactions` (`sms_service.py` 77-116) as a
step on the state of one message: if classification yields a candidate and
`create_transaction` succeeds, a transaction referencing the message is
created and `mark_sms_as_parsed` sets `parsed := true`; otherwise nothing
changes. -/
def process_message_step (uid : String) (o : GeminiOutcome) (now : DateTime)
    (s : IngestState) : IngestState :=
  match process_sms_intelligently o now with
  | none => s
  | some r =>
      match create_transaction uid s.txCount now r.cand with
      | none => s
      | some _ =>
          { msg := { s.msg with parsed := true }, txCount := s.txCount + 1 }

/-- One re-scan visit of the message (`reprocess_unparsed_sms`,
`sms_service.py` 132-167): `get_unparsed_sms_messages` selects the message
only when it belongs to the user and `parsed` is still `false`; selected
messages go through `process_sms_for_transactions` again. -/
def rescan_step (uid : String) (o : GeminiOutcome) (now : DateTime)
    (s : IngestState) : IngestState :=
  if s.msg.user_id = uid ∧ s.msg.parsed = false then process_message_step uid o now s
  else s

/-- Any number of re-scan invocations, each with its own classifier outcome
and clock reading. -/
def run_rescans (uid : String) (calls : List (GeminiOutcome × DateTime))
    (s : IngestState) : IngestState :=
  calls.foldl (fun st c => rescan_step uid c.1 c.2 st) s

/-- State right after `save_sms` stored the message (`parsed` defaults to
`false`, no transaction references it yet). -/
def initial_state (uid : String) (mid : Nat) (sender text : String) : IngestState :=
  { msg := { id := mid, user_id := uid, sender := sender, message_text := text,
             parsed := false }
    txCount := 0 }

/-- The at-most-one invariant of a message's ingest state: no more than one
transaction references the message, and as soon as one does, the message is
marked consumed. -/
def ingestInv (s : IngestState) : Prop :=
  s.txCount ≤ 1 ∧ (s.txCount = 1 → s.msg.parsed = true)

/-! ### Recurrence detection (`transaction_service.py` 370-424) -/

/-- Match stage of the `detect_recurring_transactions` pipeline: owner's
transactions with `transaction_date >= six_months_ago` and a merchant that
exists and is not null. -/
def eligibleTx (cutoff : DateTime) (uid : String) (t : Tx) : Bool :=
  decide (t.user_id = uid) && dateLe cutoff t.transaction_date && t.merchant.isSome

/-- Grouping key of the pipeline: `(merchant, amount, dayOfMonth(date))`. -/
def txKey (t : Tx) : String × ℚ × Nat :=
  (t.merchant.getD "", t.amount, t.transaction_date.day)

/-- The sub-document pushed for each group member:
`{id, transaction_date, amount}`. -/
structure TxRef where
  id : Nat
  transaction_date : DateTime
  amount : ℚ
deriving DecidableEq, Repr

/-- Projection building a `TxRef`. -/
def txRefOf (t : Tx) : TxRef :=
  ⟨t.id, t.transaction_date, t.amount⟩

/-- One entry of the list `detect_recurring_transactions` returns. -/
structure RecurrenceGroup where
  merchant : String
  amount : ℚ
  day_of_month : Nat
  frequency : Nat
  transactions : List TxRef
deriving DecidableEq, Repr

/-- The `$group` output for one key over the matched documents. -/
def groupFor (el : List Tx) (k : String × ℚ × Nat) : RecurrenceGroup :=
  let mem := el.filter (fun t => decide (txKey t = k))
  ⟨k.1, k.2.1, k.2.2, mem.length, mem.map txRefOf⟩

/-- All groups of the pipeline, in first-occurrence order of their keys
(a deterministic refinement of the store's unspecified group order). -/
def raw_groups (cutoff : DateTime) (uid : String) (txs : List Tx) :
    List RecurrenceGroup :=
  let el := txs.filter (eligibleTx cutoff uid)
  ((el.map txKey).dedup).map (groupFor el)

/-- Descending-count order used by the `$sort` stage. -/
def freqGe (a b : RecurrenceGroup) : Prop :=
  b.frequency ≤ a.frequency

instance : DecidableRel freqGe := fun a b => Nat.decLe b.frequency a.frequency

instance : IsTotal RecurrenceGroup freqGe :=
  ⟨fun a b => Nat.le_total b.frequency a.frequency⟩

instance : IsTrans RecurrenceGroup freqGe :=
  ⟨fun _ _ _ h1 h2 => le_trans h2 h1⟩

/-- Groups returned by `detect_recurring_transactions`: those with at least
two members (the `$match` on count, re-checked by the Python loop), ordered by
descending count. -/
def detect_groups (cutoff : DateTime) (uid : String) (txs : List Tx) :
    List RecurrenceGroup :=
  List.insertionSort freqGe
    ((raw_groups cutoff uid txs).filter (fun g => decide (2 ≤ g.frequency)))

/-- The update a group member receives (`update_transaction` with payload
`{"is_recurring": True}`, which also stamps `updated_at`). -/
def markRecurringTx (now : DateTime) (t : Tx) : Tx :=
  { t with is_recurring := true, updated_at := now }

/-- `update_transaction(user_id, tx_id, {"is_recurring": True})` applied to
the stored list: documents matching `(_id, user_id)` are updated. -/
def mark_recurring (uid : String) (now : DateTime) (tid : Nat) (txs : List Tx) :
    List Tx :=
  txs.map fun t => if t.id = tid ∧ t.user_id = uid then markRecurringTx now t else t

/-- The flag-setting loop of `detect_recurring_transactions`: for every
returned group, every member transaction is updated. -/
def apply_recurring_updates (uid : String) (now : DateTime)
    (groups : List RecurrenceGroup) (txs : List Tx) : List Tx :=
  groups.foldl
    (fun acc g => g.transactions.foldl (fun acc2 r => mark_recurring uid now r.id acc2) acc)
    txs

/-- `TransactionService.detect_recurring_transactions`
(`transaction_service.py` 370-424): `cutoff` stands for
`utcnow() - timedelta(days=180)` and `now` for the clock reading used by the
member updates.  Returns the group list and the updated store. -/
def detect_recurring_transactions (cutoff now : DateTime) (uid : String)
    (txs : List Tx) : List RecurrenceGroup × List Tx :=
  let groups := detect_groups cutoff uid txs
  (groups, apply_recurring_updates uid now groups txs)

/-- Ids of all member transactions of a group list, in visit order of the
flag-setting loop. -/
def memberIds (groups : List RecurrenceGroup) : List Nat :=
  (groups.map (fun g => g.transactions.map (fun r => r.id))).flatten

/-- Pointwise effect of the whole flag-setting loop on one stored document:
it is marked exactly when it belongs to the owner and its id is among the
updated member ids. -/
def markIfMember (uid : String) (now : DateTime) (ids : List Nat) (t : Tx) : Tx :=
  if t.user_id = uid ∧ t.id ∈ ids then markRecurringTx now t else t

/-! ### Analytics (`transaction_service.py` 189-336) -/

/-- Aggregated figures for one grouping key. -/
structure Agg (κ : Type) where
  key : κ
  count : Nat
  amount : ℚ
deriving DecidableEq, Repr

/-- Descending summed-amount order used by the top-merchant/top-category
`$sort` stages. -/
def amtGe {κ : Type} (a b : Agg κ) : Prop :=
  b.amount ≤ a.amount

instance {κ : Type} : DecidableRel (amtGe (κ := κ)) :=
  fun a b => inferInstanceAs (Decidable (b.amount ≤ a.amount))

instance {κ : Type} : IsTotal (Agg κ) amtGe :=
  ⟨fun a b => le_total b.amount a.amount⟩

instance {κ : Type} : IsTrans (Agg κ) amtGe :=
  ⟨fun _ _ _ h1 h2 => le_trans h2 h1⟩

/-- Chronological `(year, month)` order used by the monthly-trend `$sort`. -/
def ymLe (a b : Agg (Nat × Nat)) : Prop :=
  a.key.1 < b.key.1 ∨ (a.key.1 = b.key.1 ∧ a.key.2 ≤ b.key.2)

instance : DecidableRel ymLe := fun a b => by
  unfold ymLe
  exact inferInstance

instance : IsTotal (Agg (Nat × Nat)) ymLe := by
  constructor
  intro a b
  rcases Nat.lt_trichotomy a.key.1 b.key.1 with h | h | h
  · exact Or.inl (Or.inl h)
  · rcases Nat.le_total a.key.2 b.key.2 with h2 | h2
    · exact Or.inl (Or.inr ⟨h, h2⟩)
    · exact Or.inr (Or.inr ⟨h.symm, h2⟩)
  · exact Or.inr (Or.inl h)

instance : IsTrans (Agg (Nat × Nat)) ymLe := by
  constructor
  intro a b c h1 h2
  rcases h1 with h1 | ⟨e1, l1⟩
  · rcases h2 with h2 | ⟨e2, l2⟩
    · exact Or.inl (lt_trans h1 h2)
    · exact Or.inl (e2 ▸ h1)
  · rcases h2 with h2 | ⟨e2, l2⟩
    · exact Or.inl (e1 ▸ h2)
    · exact Or.inr ⟨e1.trans e2, le_trans l1 l2⟩

/-- Sum of the `amount` field. -/
def sumAmount (l : List Tx) : ℚ :=
  (l.map (fun t => t.amount)).sum

/-- The `$match` filter shared by all `get_analytics` pipelines: owner plus
the optional inclusive date window. -/
def analytics_match (uid : String) (start_date end_date : Option DateTime)
    (t : Tx) : Bool :=
  decide (t.user_id = uid)
  && (match start_date with | some s => dateLe s t.transaction_date | none => true)
  && (match end_date with | some e => dateLe t.transaction_date e | none => true)

/-- `AnalyticsResponse` (`app/models.py`), with the dictionaries and
dictionary lists rendered as association lists. -/
structure AnalyticsResponse where
  total_transactions : Nat
  total_amount : ℚ
  average_amount : ℚ
  transaction_count_by_type : List (TransactionType × Nat)
  amount_by_type : List (TransactionType × ℚ)
  top_merchants : List (Agg String)
  top_categories : List (Agg String)
  monthly_trends : List (Agg (Nat × Nat))
  failed_transactions : Nat
  recurring_transactions : Nat
deriving DecidableEq, Repr

/-- The zero-valued snapshot returned when the first aggregation produces no
row (`transaction_service.py` 219-231). -/
def zeroAnalytics : AnalyticsResponse :=
  { total_transactions := 0
    total_amount := 0
    average_amount := 0
    transaction_count_by_type := []
    amount_by_type := []
    top_merchants := []
    top_categories := []
    monthly_trends := []
    failed_transactions := 0
    recurring_transactions := 0 }

/-- Grouping helper: aggregate count and summed amount per key, keys in
first-occurrence order (deterministic refinement of `$group`). -/
def aggBy {κ : Type} [DecidableEq κ] (key : Tx → κ) (l : List Tx) : List (Agg κ) :=
  ((l.map key).dedup).map (fun k =>
    let g := l.filter (fun t => decide (key t = k))
    ⟨k, g.length, sumAmount g⟩)

/-- `TransactionService.get_analytics` (`transaction_service.py` 189-336) over
the stored list.  If no document matches, the first `$group` pipeline yields no
row and the zero-valued snapshot is returned; otherwise every breakdown is
recomputed from the matched set (average = sum / count; top lists sorted by
descending amount, truncated to 10, falsy keys dropped; monthly trends sorted
chronologically). -/
def get_analytics (uid : String) (start_date end_date : Option DateTime)
    (txs : List Tx) : AnalyticsResponse :=
  let matched := txs.filter (analytics_match uid start_date end_date)
  if matched.isEmpty then zeroAnalytics
  else
    let byType := aggBy (fun t => t.transaction_type) matched
    let topOf := fun (l : List (Agg (Option String))) =>
      ((List.insertionSort amtGe l).take 10).filterMap
        (fun a => match a.key with
                  | some s => if s = "" then none else some (⟨s, a.count, a.amount⟩ : Agg String)
                  | none => none)
    { total_transactions := matched.length
      total_amount := sumAmount matched
      average_amount := sumAmount matched / matched.length
      transaction_count_by_type := byType.map (fun a => (a.key, a.count))
      amount_by_type := byType.map (fun a => (a.key, a.amount))
      top_merchants := topOf (aggBy (fun t => t.merchant) matched)
      top_categories := topOf (aggBy (fun t => t.category) matched)
      monthly_trends :=
        List.insertionSort ymLe
          (aggBy (fun t => (t.transaction_date.year, t.transaction_date.month)) matched)
      failed_transactions := (matched.filter (fun t => t.is_failed)).length
      recurring_transactions := (matched.filter (fun t => t.is_recurring)).length }

/-! ### Update (`transaction_service.py` 153-173) -/

section UpdateModel

variable {V : Type}

/-- The `update_data` dictionary of `update_transaction`: a finite map from
field names to values, where the outer `Option` is key presence and the inner
`Option` is Python `None`. -/
def remove_none_values (payload : String → Option (Option V)) :
    String → Option V :=
  fun k => match payload k with
           | some (some v) => some v
           | _ => none

/-- The dictionary actually written: the None-filtered payload with
`updated_at` stamped on top (`update_transaction` lines 157-159). -/
def update_payload (payload : String → Option (Option V)) (now : V) :
    String → Option V :=
  fun k => if k = "updated_at" then some now else remove_none_values payload k

/-- `$set` semantics of the store: keys present in the update overwrite the
document, all other keys are untouched. -/
def apply_set (doc upd : String → Option V) : String → Option V :=
  fun k => match upd k with
           | some v => some v
           | none => doc k

/-- Effect of `TransactionService.update_transaction` on the stored document
(matching `(_id, user_id)` selection, surrounding error handling and the
read-back are orthogonal to the field-level claims). -/
def update_transaction (doc : String → Option V)
    (payload : String → Option (Option V)) (now : V) : String → Option V :=
  apply_set doc (update_payload payload now)

end UpdateModel

/-! ### Listing with filters (`transaction_service.py` 95-151) -/

/-- `TransactionFilter` (`app/models.py`). -/
structure TransactionFilter where
  start_date : Option DateTime := none
  end_date : Option DateTime := none
  min_amount : Option ℚ := none
  max_amount : Option ℚ := none
  transaction_type : Option TransactionType := none
  merchant : Option String := none
  category : Option String := none
  payment_method : Option PaymentMethod := none
  is_failed : Option Bool := none
  tags : Option (List String) := none
  limit : Nat := 50
  offset : Nat := 0
deriving DecidableEq, Repr

/-- Case-insensitive substring containment: the semantics of the
`{"$regex": q, "$options": "i"}` merchant filter for the regex-metacharacter-
free strings this endpoint is used with. -/
def containsCI (hay pat : String) : Bool :=
  decide (List.IsInfix ((str_lower pat).data) ((str_lower hay).data))

/-- The query document built by `get_transactions` (lines 99-135), as the
predicate it makes the store evaluate.  Each clause is guarded exactly the way
the code guards it: by Python truthiness for dates, amounts, enums, strings and
tag lists, and by `is not None` for `is_failed`. -/
def matches_filters (uid : String) (f : TransactionFilter) (t : Tx) : Bool :=
  decide (t.user_id = uid)
  && (match f.start_date with
      | some s => dateLe s t.transaction_date
      | none => true)
  && (match f.end_date with
      | some e => dateLe t.transaction_date e
      | none => true)
  && (match f.min_amount with
      | some m => if m = 0 then true else decide (m ≤ t.amount)
      | none => true)
  && (match f.max_amount with
      | some m => if m = 0 then true else decide (t.amount ≤ m)
      | none => true)
  && (match f.transaction_type with
      | some ty => decide (t.transaction_type = ty)
      | none => true)
  && (match f.merchant with
      | some q => if q = "" then true
                  else match t.merchant with
                       | some m => containsCI m q
                       | none => false
      | none => true)
  && (match f.category with
      | some c => if c = "" then true else decide (t.category = some c)
      | none => true)
  && (match f.payment_method with
      | some p => decide (t.payment_method = some p)
      | none => true)
  && (match f.is_failed with
      | some b => decide (t.is_failed = b)
      | none => true)
  && (match f.tags with
      | some l => if l.isEmpty then true else t.tags.any (fun tag => l.contains tag)
      | none => true)

/-- Descending `transaction_date` order of the listing's `.sort`. -/
def txDateGe (a b : Tx) : Prop :=
  dateLe b.transaction_date a.transaction_date = true

instance : DecidableRel txDateGe := fun a b =>
  instDecidableEqBool (dateLe b.transaction_date a.transaction_date) true

instance : IsTotal Tx txDateGe := by
  constructor
  intro a b
  unfold txDateGe dateLe
  rcases Nat.le_total a.transaction_date.key b.transaction_date.key with h | h
  · exact Or.inr (by simpa using h)
  · exact Or.inl (by simpa using h)

instance : IsTrans Tx txDateGe := by
  constructor
  intro a b c h1 h2
  unfold txDateGe dateLe at h1 h2 ⊢
  simp only [decide_eq_true_eq] at h1 h2 ⊢
  exact le_trans h2 h1

/-- `TransactionService.get_transactions` (`transaction_service.py` 95-151):
filter by the built query, sort by date descending, then apply
`skip`/`limit`. -/
def get_transactions (uid : String) (f : TransactionFilter) (txs : List Tx) :
    List Tx :=
  (((List.insertionSort txDateGe (txs.filter (matches_filters uid f))).drop f.offset).take
    f.limit)

/-! ### Concrete data used by counterexamples, instance checks and witnesses -/

/-- A fixed clock reading. -/
def clock0 : DateTime := ⟨2025, 1, 15, 12, 0, 0⟩

/-- A later clock reading. -/
def clock1 : DateTime := ⟨2025, 1, 16, 12, 0, 0⟩

/-- Valid classifier batch entry (statement line 1). -/
def backupEntryOk1 : ParsedData :=
  { transaction_type := some "debit", amount := some 100, merchant := some "A" }

/-- Malformed classifier batch entry: the `amount` key is missing. -/
def backupEntryNoAmount : ParsedData :=
  { transaction_type := some "debit", merchant := some "B" }

/-- Valid classifier batch entry (statement line 3). -/
def backupEntryOk2 : ParsedData :=
  { transaction_type := some "credit", amount := some 50 }

/-- Classifier output for a non-transaction message. -/
def otpData : ParsedData :=
  { is_transaction := some false, confidence := some (9 / 10), reason := some "OTP message" }

/-- Transactional classifier output with no `transaction_date` field. -/
def spentNoDate : ParsedData :=
  { is_transaction := some true, transaction_type := some "spent", amount := some 500,
    merchant := some "Amazon", payment_method := some "card" }

/-- Transactional classifier output with a well-formed ISO date. -/
def spentWithDate : ParsedData :=
  { is_transaction := some true, transaction_type := some "spent", amount := some 500,
    merchant := some "Amazon", payment_method := some "card",
    transaction_date := some "2025-01-05T10:00:00" }

/-- Transactional classifier output with a non-positive amount. -/
def spentNegative : ParsedData :=
  { is_transaction := some true, transaction_type := some "spent", amount := some (-5),
    merchant := some "Amazon" }

/-- Stored document for the update witness: it has an assigned category. -/
def docW : String → Option Nat := fun k => if k = "category" then some 7 else none

/-- Update payload for the update witness: every key absent. -/
def payloadW : String → Option (Option Nat) := fun _ => none

/-- A stored transaction for the recurrence example. -/
def sampleTx (i : Nat) (m : String) (a : ℚ) (d : DateTime) : Tx :=
  { id := i, user_id := "u", transaction_type := .payment, amount := a, currency := "INR",
    merchant := some m, category := none, transaction_date := d, reference_number := none,
    account_number := none, card_number := none, payment_method := none, remarks := none,
    tags := [], is_failed := false, is_recurring := false, created_at := d, updated_at := d }

/-- The window start used by the recurrence example. -/
def recCutoff : DateTime := ⟨2025, 1, 1, 0, 0, 0⟩

/-- The clock reading used by the recurrence example. -/
def recNow : DateTime := ⟨2025, 7, 1, 0, 0, 0⟩

/-- Three Netflix charges of 199 on the 5th of three different months, plus a
fourth charge of 199 on the 5th with a different counterparty. -/
def recTxs : List Tx :=
  [sampleTx 1 "Netflix" 199 ⟨2025, 3, 5, 10, 0, 0⟩,
   sampleTx 2 "Netflix" 199 ⟨2025, 4, 5, 10, 0, 0⟩,
   sampleTx 3 "Netflix" 199 ⟨2025, 5, 5, 10, 0, 0⟩,
   sampleTx 4 "Gym" 199 ⟨2025, 4, 5, 9, 0, 0⟩]

/-! ## Theorems -/

/-- Unfolding equation for `process_sms_intelligently` on parsed classifier
output. -/
theorem process_sms_parsed_eq (d : ParsedData) (now : DateTime) :
    process_sms_intelligently (.parsed d) now =
      (if d.is_transaction.getD false = false then none
       else
         match d.amount with
         | none => none
         | some a =>
             match convert_transaction_type (d.transaction_type.getD "") with
             | none => none
             | some ty =>
                 some { cand := buildCandidate d ty a now
                        detection_confidence := d.confidence.getD 0
                        detection_reason := d.reason.getD "Unknown" }) := rfl

/-- C1, counterexample: for a 3-entry classifier batch output whose second
entry lacks `amount`, `process_backup_file` reports `transactions_found = 2`
(not 3) and an empty `errors` list (not one entry): the gateway loop silently
drops the malformed entry before the controller counts anything. -/
theorem c1_counterexample :
    (process_backup_file "u" clock0
      (.parsed [backupEntryOk1, backupEntryNoAmount, backupEntryOk2])).transactions_found = 2
    ∧ (process_backup_file "u" clock0
      (.parsed [backupEntryOk1, backupEntryNoAmount, backupEntryOk2])).transactions_created = 2
    ∧ (process_backup_file "u" clock0
      (.parsed [backupEntryOk1, backupEntryNoAmount, backupEntryOk2])).errors = []
    ∧ ¬((process_backup_file "u" clock0
      (.parsed [backupEntryOk1, backupEntryNoAmount, backupEntryOk2])).transactions_found = 3) := by
  decide

/-- C1, amended: for a bulk import whose classifier batch output contains 3
entries of which exactly one lacks the `amount` field (and the other two pass
gateway validation and transaction validation), `process_backup_file` returns
`transactions_found = 2`, `transactions_created = 2` and an empty `errors`
list — the entry without `amount` is dropped by the gateway, not recorded as
an error. -/
theorem c1_bulk_import (uid : String) (now : DateTime) (e1 e2 e3 : ParsedData)
    (c1 c3 : Candidate)
    (h1 : parse_backup_entry now e1 = some c1)
    (h2 : e2.amount = none)
    (h3 : parse_backup_entry now e3 = some c3)
    (k1 : (create_transaction uid 0 now c1).isSome = true)
    (k3 : (create_transaction uid 0 now c3).isSome = true) :
    (process_backup_file uid now (.parsed [e1, e2, e3])).transactions_found = 2
    ∧ (process_backup_file uid now (.parsed [e1, e2, e3])).transactions_created = 2
    ∧ (process_backup_file uid now (.parsed [e1, e2, e3])).errors = [] := by
  have he2 : parse_backup_entry now e2 = none := by
    unfold parse_backup_entry
    split
    · rfl
    · rw [h2]
  obtain ⟨t1, ht1⟩ := Option.isSome_iff_exists.mp k1
  obtain ⟨t3, ht3⟩ := Option.isSome_iff_exists.mp k3
  simp [process_backup_file, parse_backup_file_with_gemini, List.filterMap_cons,
        h1, he2, h3, ht1, ht3]

/-- C1, witness: the amended statement instantiated on the concrete 3-entry
batch. -/
theorem c1_witness :
    parse_backup_entry clock0 backupEntryOk1
        = some (buildCandidate backupEntryOk1 .debit 100 clock0)
    ∧ backupEntryNoAmount.amount = none
    ∧ parse_backup_entry clock0 backupEntryOk2
        = some (buildCandidate backupEntryOk2 .credit 50 clock0)
    ∧ (process_backup_file "u" clock0
        (.parsed [backupEntryOk1, backupEntryNoAmount, backupEntryOk2])).transactions_found = 2
    ∧ (process_backup_file "u" clock0
        (.parsed [backupEntryOk1, backupEntryNoAmount, backupEntryOk2])).transactions_created = 2
    ∧ (process_backup_file "u" clock0
        (.parsed [backupEntryOk1, backupEntryNoAmount, backupEntryOk2])).errors = [] := by
  refine ⟨by decide, by decide, by decide, ?_⟩
  exact c1_bulk_import "u" clock0 backupEntryOk1 backupEntryNoAmount backupEntryOk2
    (buildCandidate backupEntryOk1 .debit 100 clock0)
    (buildCandidate backupEntryOk2 .credit 50 clock0)
    (by decide) (by decide) (by decide) (by decide) (by decide)

/-- C2, counterexample: a failing classifier call (network/timeout error) and
a non-transaction classification produce the *same* outcome `none` — no
distinct `ClassifierUnavailable` error is surfaced to the caller. -/
theorem c2_counterexample :
    process_sms_intelligently .failure clock0
      = process_sms_intelligently (.parsed otpData) clock0
    ∧ process_sms_intelligently .failure clock0 = none := by
  decide

/-- C2, amended: the `except Exception` handler in
`process_sms_intelligently` swallows network/timeout failures of the external
classifier call and returns `None` — the very outcome returned for
Unclassifiable (non-transaction) messages, so the caller cannot distinguish
the two. -/
theorem c2_failure_swallowed (now : DateTime) (d : ParsedData)
    (h : d.is_transaction.getD false = false) :
    process_sms_intelligently .failure now = none
    ∧ process_sms_intelligently .failure now
        = process_sms_intelligently (.parsed d) now := by
  constructor
  · rfl
  · simp [process_sms_intelligently, h]

/-- C2, witness: the amended statement at a concrete non-transaction
classification. -/
theorem c2_witness :
    otpData.is_transaction.getD false = false
    ∧ (process_sms_intelligently .failure clock0 = none
       ∧ process_sms_intelligently .failure clock0
           = process_sms_intelligently (.parsed otpData) clock0) :=
  ⟨by decide, c2_failure_swallowed clock0 otpData (by decide)⟩

/-- C3, counterexample: on classifier output whose date field is missing,
normalization is *not* a deterministic function of the classifier output
alone — two runs at different clock instants produce different results,
because the date fallback is the current time. -/
theorem c3_counterexample :
    process_sms_intelligently (.parsed spentNoDate) clock0
      ≠ process_sms_intelligently (.parsed spentNoDate) clock1 := by
  decide

/-- C3, amended: normalization is deterministic for every classifier output
whose date field parses as ISO-8601 (after the `Z` replacement): the result
does not depend on the clock reading.  (When the date is missing or
unparsable, the stored date falls back to the current time and the output is
clock-dependent, as the counterexample shows.) -/
theorem c3_deterministic_given_parseable_date (d : ParsedData) (n1 n2 : DateTime)
    (h : (fromisoformat (replace_Z_offset (d.transaction_date.getD ""))).isSome = true) :
    process_sms_intelligently (.parsed d) n1 = process_sms_intelligently (.parsed d) n2 := by
  obtain ⟨v, hv⟩ := Option.isSome_iff_exists.mp h
  have hb : ∀ (ty : TransactionType) (a : ℚ),
      buildCandidate d ty a n1 = buildCandidate d ty a n2 := by
    intro ty a
    simp [buildCandidate, parse_date_from_gemini, hv]
  simp only [process_sms_intelligently, hb]

/-- C3, witness: the amended statement at a concrete output with a
well-formed ISO date and two distinct clock readings. -/
theorem c3_witness :
    (fromisoformat (replace_Z_offset (spentWithDate.transaction_date.getD ""))).isSome = true
    ∧ process_sms_intelligently (.parsed spentWithDate) clock0
        = process_sms_intelligently (.parsed spentWithDate) clock1 :=
  ⟨by decide, c3_deterministic_given_parseable_date spentWithDate clock0 clock1 (by decide)⟩

/-- C4: for every classifier output whose amount field is missing or `≤ 0`,
the single-message pipeline (classification result → pydantic `Transaction`
validation) produces no transaction, regardless of all other fields: a
missing amount is rejected inside `process_sms_intelligently`, a non-positive
amount by `validate_amount` inside `create_transaction`. -/
theorem c4_nonpositive_amount_rejected (uid : String) (nid : Nat) (now : DateTime)
    (d : ParsedData)
    (h : d.amount = none ∨ ∃ a : ℚ, d.amount = some a ∧ a ≤ 0) :
    sms_to_transaction uid nid (.parsed d) now = none := by
  unfold sms_to_transaction
  rw [process_sms_parsed_eq]
  rcases h with h | ⟨a, ha, hle⟩
  · rw [h]
    split_ifs with hg
    · rfl
    · rfl
  · rw [ha]
    split_ifs with hg
    · rfl
    · cases hty : convert_transaction_type (d.transaction_type.getD "") with
      | none => rfl
      | some ty =>
          simp only [create_transaction, buildCandidate]
          rw [if_neg]
          rintro ⟨h1, _⟩
          exact absurd h1 (not_lt.mpr hle)

/-- C4, witness: a concrete classifier output with amount `-5` yields no
transaction. -/
theorem c4_witness :
    (spentNegative.amount = none
      ∨ ∃ a : ℚ, spentNegative.amount = some a ∧ a ≤ 0)
    ∧ sms_to_transaction "u" 0 (.parsed spentNegative) clock0 = none :=
  ⟨Or.inr ⟨-5, by decide, by norm_num⟩,
   c4_nonpositive_amount_rejected "u" 0 clock0 spentNegative
     (Or.inr ⟨-5, by decide, by norm_num⟩)⟩

/-- Processing a message that no transaction references yet establishes the
at-most-one invariant: either nothing changes, or exactly one transaction is
created and the message is marked consumed in the same step. -/
theorem process_message_step_inv (uid : String) (o : GeminiOutcome) (now : DateTime)
    (s : IngestState) (h : s.txCount = 0) :
    ingestInv (process_message_step uid o now s) := by
  unfold process_message_step
  cases process_sms_intelligently o now with
  | none =>
      dsimp only
      exact ⟨by omega, fun h1 => by omega⟩
  | some r =>
      dsimp only
      cases create_transaction uid s.txCount now r.cand with
      | none =>
          dsimp only
          exact ⟨by omega, fun h1 => by omega⟩
      | some t =>
          exact ⟨by simp [h], fun _ => rfl⟩

/-- A re-scan visit preserves the invariant: the re-scan query selects the
message only while `parsed = false`, and by the invariant such a message has
no transaction yet. -/
theorem rescan_step_inv (uid : String) (o : GeminiOutcome) (now : DateTime)
    (s : IngestState) (h : ingestInv s) :
    ingestInv (rescan_step uid o now s) := by
  unfold rescan_step
  split_ifs with hc
  · have h0 : s.txCount = 0 := by
      rcases Nat.eq_or_lt_of_le h.1 with h1 | h1
      · rw [h.2 h1] at hc
        exact absurd hc.2 (by simp)
      · omega
    exact process_message_step_inv uid o now s h0
  · exact h

/-- Any sequence of re-scan invocations preserves the invariant. -/
theorem run_rescans_inv (uid : String) (calls : List (GeminiOutcome × DateTime))
    (s : IngestState) (h : ingestInv s) :
    ingestInv (run_rescans uid calls s) := by
  induction calls generalizing s with
  | nil => exact h
  | cons c cs ih =>
      exact ih (rescan_step uid c.1 c.2 s) (rescan_step_inv uid c.1 c.2 s h)

/-- C5: starting from a freshly saved message (`parsed = false`, no
transaction), one ingest invocation followed by any sequence of re-scan
invocations — each with an arbitrary classifier outcome and clock reading —
creates at most one transaction referencing that message: a derived
transaction flips `parsed` to true in the same step, and re-scan only selects
`parsed = false` messages of the owner. -/
theorem c5_at_most_one (uid : String) (mid : Nat) (sender text : String)
    (o0 : GeminiOutcome) (n0 : DateTime) (calls : List (GeminiOutcome × DateTime)) :
    (run_rescans uid calls
      (process_message_step uid o0 n0 (initial_state uid mid sender text))).txCount ≤ 1 :=
  (run_rescans_inv uid calls _
    (process_message_step_inv uid o0 n0 (initial_state uid mid sender text) rfl)).1

/-- C8: for every owner and optional inclusive time window, if no stored
transaction matches the filter, `get_analytics` returns (does not fail) the
zero-valued snapshot: zero totals and averages, zero failed/recurring counts,
and empty per-kind, top-merchant, top-category and monthly-trend
collections. -/
theorem c8_empty_analytics (uid : String) (s e : Option DateTime) (txs : List Tx)
    (h : txs.filter (analytics_match uid s e) = []) :
    (get_analytics uid s e txs).total_transactions = 0
    ∧ (get_analytics uid s e txs).total_amount = 0
    ∧ (get_analytics uid s e txs).average_amount = 0
    ∧ (get_analytics uid s e txs).transaction_count_by_type = []
    ∧ (get_analytics uid s e txs).amount_by_type = []
    ∧ (get_analytics uid s e txs).top_merchants = []
    ∧ (get_analytics uid s e txs).top_categories = []
    ∧ (get_analytics uid s e txs).monthly_trends = []
    ∧ (get_analytics uid s e txs).failed_transactions = 0
    ∧ (get_analytics uid s e txs).recurring_transactions = 0 := by
  simp [get_analytics, h, zeroAnalytics]

/-- C8, witness: the empty store with no window. -/
theorem c8_witness :
    (([] : List Tx).filter (analytics_match "u" none none) = [])
    ∧ (get_analytics "u" none none []).total_transactions = 0
    ∧ (get_analytics "u" none none []).total_amount = 0
    ∧ (get_analytics "u" none none []).average_amount = 0
    ∧ (get_analytics "u" none none []).top_merchants = [] := by
  have h := c8_empty_analytics "u" none none [] rfl
  exact ⟨rfl, h.1, h.2.1, h.2.2.1, h.2.2.2.2.2.1⟩

/-- C9: `update_transaction` drops every `None`-valued key from the payload
before writing, so (apart from the service-stamped `updated_at`) a field that
is absent from the payload or passed as `None` keeps its stored value, and no
update can turn a stored field into null. -/
theorem c9_update_frame (V : Type) (doc : String → Option V)
    (payload : String → Option (Option V)) (now : V) (k : String) :
    (k ≠ "updated_at" → (payload k = none ∨ payload k = some none) →
       update_transaction doc payload now k = doc k)
    ∧ (update_transaction doc payload now k = none → doc k = none) := by
  constructor
  · intro hk hp
    rcases hp with hp | hp <;>
      simp [update_transaction, apply_set, update_payload, remove_none_values, hk, hp]
  · intro h
    by_cases hk : k = "updated_at"
    · simp [update_transaction, apply_set, update_payload, hk] at h
    · simp only [update_transaction, apply_set, update_payload, remove_none_values,
                 if_neg hk] at h
      rcases hpk : payload k with _ | ov
      · rw [hpk] at h
        exact h
      · rcases ov with _ | v
        · rw [hpk] at h
          exact h
        · rw [hpk] at h
          exact absurd h (by simp)

/-- C9, witness: an empty update leaves the assigned category in place and
cannot null it. -/
theorem c9_witness :
    update_transaction docW payloadW 0 "category" = docW "category"
    ∧ (update_transaction docW payloadW 0 "category" = none → docW "category" = none) :=
  ⟨(c9_update_frame Nat docW payloadW 0 "category").1 (by decide) (Or.inl rfl),
   (c9_update_frame Nat docW payloadW 0 "category").2⟩

/-- C10: in `get_transactions`, an amount bound equal to 0 is silently
ignored, because bound presence is tested by Python truthiness (`if
filters.min_amount:`), not by `is not None`: the listing result with
`min_amount = 0` (resp. `max_amount = 0`) equals the result with the bound
absent, for every stored list and every remaining filter combination. -/
theorem c10_zero_amount_bound_ignored (uid : String) (f : TransactionFilter)
    (txs : List Tx) :
    get_transactions uid { f with min_amount := some 0 } txs
      = get_transactions uid { f with min_amount := none } txs
    ∧ get_transactions uid { f with max_amount := some 0 } txs
      = get_transactions uid { f with max_amount := none } txs := by
  have h1 : matches_filters uid { f with min_amount := some 0 }
      = matches_filters uid { f with min_amount := none } := by
    funext t
    simp [matches_filters]
  have h2 : matches_filters uid { f with max_amount := some 0 }
      = matches_filters uid { f with max_amount := none } := by
    funext t
    simp [matches_filters]
  constructor
  · simp [get_transactions, h1]
  · simp [get_transactions, h2]

/-- Marking never changes `user_id`. -/
theorem markIfMember_user_id (uid : String) (now : DateTime) (ids : List Nat) (t : Tx) :
    (markIfMember uid now ids t).user_id = t.user_id := by
  unfold markIfMember
  split_ifs <;> rfl

/-- Marking never changes `id`. -/
theorem markIfMember_id (uid : String) (now : DateTime) (ids : List Nat) (t : Tx) :
    (markIfMember uid now ids t).id = t.id := by
  unfold markIfMember
  split_ifs <;> rfl

/-- Marking never changes `merchant`. -/
theorem markIfMember_merchant (uid : String) (now : DateTime) (ids : List Nat) (t : Tx) :
    (markIfMember uid now ids t).merchant = t.merchant := by
  unfold markIfMember
  split_ifs <;> rfl

/-- Marking never changes `amount`. -/
theorem markIfMember_amount (uid : String) (now : DateTime) (ids : List Nat) (t : Tx) :
    (markIfMember uid now ids t).amount = t.amount := by
  unfold markIfMember
  split_ifs <;> rfl

/-- Marking never changes `transaction_date`. -/
theorem markIfMember_transaction_date (uid : String) (now : DateTime) (ids : List Nat)
    (t : Tx) :
    (markIfMember uid now ids t).transaction_date = t.transaction_date := by
  unfold markIfMember
  split_ifs <;> rfl

/-- One `mark_recurring` update followed by marking for the remaining ids
equals marking for the combined id list. -/
theorem markIfMember_step (uid : String) (now : DateTime) (i : Nat) (is : List Nat)
    (t : Tx) :
    markIfMember uid now is (if t.id = i ∧ t.user_id = uid then markRecurringTx now t else t)
      = markIfMember uid now (i :: is) t := by
  by_cases h1 : t.id = i ∧ t.user_id = uid
  · rw [if_pos h1]
    unfold markIfMember markRecurringTx
    simp only [h1.2, List.mem_cons, h1.1, true_or, and_self, if_pos, true_and]
    split_ifs <;> rfl
  · rw [if_neg h1]
    unfold markIfMember
    by_cases h2 : t.user_id = uid ∧ t.id ∈ is
    · rw [if_pos h2, if_pos ⟨h2.1, List.mem_cons.mpr (Or.inr h2.2)⟩]
    · rw [if_neg h2, if_neg]
      rintro ⟨hu, hm⟩
      rcases List.mem_cons.mp hm with hm | hm
      · exact h1 ⟨hm, hu⟩
      · exact h2 ⟨hu, hm⟩

/-- The fold of per-id updates equals a single pointwise map. -/
theorem foldl_mark_recurring (uid : String) (now : DateTime) (ids : List Nat)
    (txs : List Tx) :
    ids.foldl (fun acc i => mark_recurring uid now i acc) txs
      = txs.map (markIfMember uid now ids) := by
  induction ids generalizing txs with
  | nil =>
      have h0 : ∀ t : Tx, markIfMember uid now [] t = t := by
        intro t
        unfold markIfMember
        rw [if_neg]
        rintro ⟨_, hm⟩
        exact absurd hm (List.not_mem_nil _)
      have h1 : List.map (markIfMember uid now []) txs = List.map id txs :=
        List.map_congr_left fun t _ => h0 t
      rw [List.foldl_nil, h1, List.map_id]
  | cons i is ih =>
      rw [List.foldl_cons, ih (mark_recurring uid now i txs)]
      unfold mark_recurring
      rw [List.map_map]
      apply List.map_congr_left
      intro t ht
      exact markIfMember_step uid now i is t


/-- The nested group/member update loop visits exactly the flattened member
ids. -/
theorem apply_recurring_updates_foldl (uid : String) (now : DateTime)
    (groups : List RecurrenceGroup) (txs : List Tx) :
    apply_recurring_updates uid now groups txs
      = (memberIds groups).foldl (fun acc i => mark_recurring uid now i acc) txs := by
  induction groups generalizing txs with
  | nil => rfl
  | cons g gs ih =>
      unfold apply_recurring_updates
      rw [List.foldl_cons]
      have hinner : g.transactions.foldl (fun acc2 r => mark_recurring uid now r.id acc2) txs
          = (g.transactions.map (fun r => r.id)).foldl
              (fun acc i => mark_recurring uid now i acc) txs := by
        rw [List.foldl_map]
      have hflat : memberIds (g :: gs)
          = (g.transactions.map (fun r => r.id)) ++ memberIds gs := by
        simp [memberIds]
      rw [hflat, List.foldl_append, ← hinner]
      exact ih _

/-- The whole flag-setting loop is the pointwise `markIfMember` map. -/
theorem apply_recurring_updates_eq (uid : String) (now : DateTime)
    (groups : List RecurrenceGroup) (txs : List Tx) :
    apply_recurring_updates uid now groups txs
      = txs.map (markIfMember uid now (memberIds groups)) := by
  rw [apply_recurring_updates_foldl, foldl_mark_recurring]

/-- Marking is idempotent (the same `updated_at` is re-stamped). -/
theorem markIfMember_idem (uid : String) (now : DateTime) (ids : List Nat) (t : Tx) :
    markIfMember uid now ids (markIfMember uid now ids t) = markIfMember uid now ids t := by
  by_cases h : t.user_id = uid ∧ t.id ∈ ids
  · unfold markIfMember
    rw [if_pos h]
    rw [if_pos]
    · rfl
    · exact ⟨h.1, h.2⟩
  · unfold markIfMember
    rw [if_neg h, if_neg h]


/-- Eligibility only reads fields that marking preserves. -/
theorem eligibleTx_markIfMember (cutoff : DateTime) (u uid : String) (now : DateTime)
    (ids : List Nat) (t : Tx) :
    eligibleTx cutoff u (markIfMember uid now ids t) = eligibleTx cutoff u t := by
  unfold eligibleTx
  rw [markIfMember_user_id, markIfMember_transaction_date, markIfMember_merchant]

/-- The grouping key only reads fields that marking preserves. -/
theorem txKey_markIfMember (uid : String) (now : DateTime) (ids : List Nat) (t : Tx) :
    txKey (markIfMember uid now ids t) = txKey t := by
  unfold txKey
  rw [markIfMember_merchant, markIfMember_amount, markIfMember_transaction_date]

/-- The pushed member sub-document only reads fields that marking
preserves. -/
theorem txRefOf_markIfMember (uid : String) (now : DateTime) (ids : List Nat) (t : Tx) :
    txRefOf (markIfMember uid now ids t) = txRefOf t := by
  unfold txRefOf
  rw [markIfMember_id, markIfMember_transaction_date, markIfMember_amount]

/-- The match stage commutes with marking. -/
theorem filter_eligible_map_markIf (cutoff : DateTime) (u uid : String) (now : DateTime)
    (ids : List Nat) (txs : List Tx) :
    (txs.map (markIfMember uid now ids)).filter (eligibleTx cutoff u)
      = (txs.filter (eligibleTx cutoff u)).map (markIfMember uid now ids) := by
  rw [List.filter_map]
  congr 1
  apply List.filter_congr
  intro t ht
  exact eligibleTx_markIfMember cutoff u uid now ids t

/-- A group computed over marked documents equals the group over the
originals. -/
theorem groupFor_map_markIf (uid : String) (now : DateTime) (ids : List Nat)
    (el : List Tx) (k : String × ℚ × Nat) :
    groupFor (el.map (markIfMember uid now ids)) k = groupFor el k := by
  unfold groupFor
  have hmem : (el.map (markIfMember uid now ids)).filter (fun t => decide (txKey t = k))
      = (el.filter (fun t => decide (txKey t = k))).map (markIfMember uid now ids) := by
    rw [List.filter_map]
    congr 1
    apply List.filter_congr
    intro t ht
    simp [Function.comp, txKey_markIfMember]
  rw [hmem]
  have hrefs : ((el.filter (fun t => decide (txKey t = k))).map
        (markIfMember uid now ids)).map txRefOf
      = (el.filter (fun t => decide (txKey t = k))).map txRefOf := by
    rw [List.map_map]
    apply List.map_congr_left
    intro t ht
    exact txRefOf_markIfMember uid now ids t
  simp only [List.length_map, hrefs]

/-- The full `$group` stage is invariant under marking. -/
theorem raw_groups_map_markIf (cutoff : DateTime) (u uid : String) (now : DateTime)
    (ids : List Nat) (txs : List Tx) :
    raw_groups cutoff u (txs.map (markIfMember uid now ids)) = raw_groups cutoff u txs := by
  unfold raw_groups
  dsimp only
  rw [filter_eligible_map_markIf]
  have hkeys : ((txs.filter (eligibleTx cutoff u)).map (markIfMember uid now ids)).map txKey
      = (txs.filter (eligibleTx cutoff u)).map txKey := by
    rw [List.map_map]
    apply List.map_congr_left
    intro t ht
    exact txKey_markIfMember uid now ids t
  rw [hkeys]
  apply List.map_congr_left
  intro k hk
  exact groupFor_map_markIf uid now ids _ k

/-- The returned group list is invariant under marking. -/
theorem detect_groups_map_markIf (cutoff : DateTime) (u uid : String) (now : DateTime)
    (ids : List Nat) (txs : List Tx) :
    detect_groups cutoff u (txs.map (markIfMember uid now ids))
      = detect_groups cutoff u txs := by
  unfold detect_groups
  rw [raw_groups_map_markIf]

/-- C7: `detect_recurring_transactions` is idempotent: run a second time at
the same reference time over the store left by the first run (with no other
changes), it returns the identical group list and leaves every document —
in particular every `recurring` flag — exactly as the first run left it. -/
theorem c7_idempotent (cutoff now : DateTime) (uid : String) (txs : List Tx) :
    detect_recurring_transactions cutoff now uid
        (detect_recurring_transactions cutoff now uid txs).2
      = detect_recurring_transactions cutoff now uid txs := by
  unfold detect_recurring_transactions
  dsimp only
  rw [apply_recurring_updates_eq, detect_groups_map_markIf]
  have hsnd : apply_recurring_updates uid now (detect_groups cutoff uid txs)
        (txs.map (markIfMember uid now (memberIds (detect_groups cutoff uid txs))))
      = txs.map (markIfMember uid now (memberIds (detect_groups cutoff uid txs))) := by
    rw [apply_recurring_updates_eq, List.map_map]
    apply List.map_congr_left
    intro t ht
    exact markIfMember_idem uid now _ t
  rw [hsnd]


/-- Membership in the returned group list. -/
theorem mem_detect_groups_iff (cutoff : DateTime) (uid : String) (txs : List Tx)
    (g : RecurrenceGroup) :
    g ∈ detect_groups cutoff uid txs
      ↔ g ∈ raw_groups cutoff uid txs ∧ 2 ≤ g.frequency := by
  unfold detect_groups
  rw [List.mem_insertionSort, List.mem_filter]
  simp

/-- Returned groups are sorted by descending member count, and each has at
least two members with `frequency` equal to the member-list length. -/
theorem c6_groups (cutoff now : DateTime) (uid : String) (txs : List Tx) :
    List.Sorted freqGe (detect_recurring_transactions cutoff now uid txs).1
    ∧ (∀ g ∈ (detect_recurring_transactions cutoff now uid txs).1,
        2 ≤ g.frequency ∧ g.frequency = g.transactions.length) := by
  constructor
  · exact List.sorted_insertionSort freqGe _
  · intro g hg
    have hg2 := (mem_detect_groups_iff cutoff uid txs g).mp hg
    refine ⟨hg2.2, ?_⟩
    obtain ⟨k, hk, hgk⟩ := List.mem_map.mp hg2.1
    rw [← hgk]
    simp [groupFor]


/-- A `(counterparty, amount, day-of-month)` key has a returned group
exactly when at least two eligible transactions carry it, and that group
lists exactly those transactions. -/
theorem c6_key_iff (cutoff now : DateTime) (uid : String) (txs : List Tx)
    (k : String × ℚ × Nat) :
    2 ≤ ((txs.filter (eligibleTx cutoff uid)).filter
          (fun t => decide (txKey t = k))).length
      ↔ ∃ g ∈ (detect_recurring_transactions cutoff now uid txs).1,
          g.merchant = k.1 ∧ g.amount = k.2.1 ∧ g.day_of_month = k.2.2
          ∧ g.frequency = ((txs.filter (eligibleTx cutoff uid)).filter
              (fun t => decide (txKey t = k))).length
          ∧ g.transactions = ((txs.filter (eligibleTx cutoff uid)).filter
              (fun t => decide (txKey t = k))).map txRefOf := by
  constructor
  · intro hlen
    have hpos : 0 < ((txs.filter (eligibleTx cutoff uid)).filter
        (fun t => decide (txKey t = k))).length := by omega
    obtain ⟨t, ht⟩ := List.exists_mem_of_length_pos hpos
    have ht2 := List.mem_filter.mp ht
    have htk : txKey t = k := of_decide_eq_true ht2.2
    have hkmem : k ∈ ((txs.filter (eligibleTx cutoff uid)).map txKey).dedup := by
      rw [List.mem_dedup]
      exact List.mem_map.mpr ⟨t, ht2.1, htk⟩
    have hraw : groupFor (txs.filter (eligibleTx cutoff uid)) k
        ∈ raw_groups cutoff uid txs :=
      List.mem_map.mpr ⟨k, hkmem, rfl⟩
    refine ⟨groupFor (txs.filter (eligibleTx cutoff uid)) k, ?_, rfl, rfl, rfl, rfl, rfl⟩
    exact (mem_detect_groups_iff cutoff uid txs _).mpr ⟨hraw, hlen⟩
  · rintro ⟨g, hg, hm, ha, hd, hf, ht⟩
    have h2 := ((mem_detect_groups_iff cutoff uid txs g).mp hg).2
    rw [hf] at h2
    exact h2


/-- After detection, every stored transaction of the owner that is a member
of some returned group has its `recurring` flag set. -/
theorem c6_flags (cutoff now : DateTime) (uid : String) (txs : List Tx) :
    ∀ t ∈ (detect_recurring_transactions cutoff now uid txs).2,
      t.user_id = uid →
      (∃ g ∈ (detect_recurring_transactions cutoff now uid txs).1,
        ∃ r ∈ g.transactions, r.id = t.id) →
      t.is_recurring = true := by
  intro t ht huser hex
  obtain ⟨g, hg, r, hr, hid⟩ := hex
  have ht' : t ∈ txs.map (markIfMember uid now (memberIds (detect_groups cutoff uid txs))) := by
    rw [← apply_recurring_updates_eq]
    exact ht
  obtain ⟨t0, ht0, rfl⟩ := List.mem_map.mp ht'
  have hidmem : r.id ∈ memberIds (detect_groups cutoff uid txs) := by
    unfold memberIds
    rw [List.mem_flatten]
    exact ⟨g.transactions.map (fun x => x.id), List.mem_map.mpr ⟨g, hg, rfl⟩,
           List.mem_map.mpr ⟨r, hr, rfl⟩⟩
  have hu0 : t0.user_id = uid := by
    rw [← markIfMember_user_id uid now (memberIds (detect_groups cutoff uid txs)) t0]
    exact huser
  have ht0id : t0.id = r.id := by
    rw [hid, markIfMember_id]
  have hi0 : t0.id ∈ memberIds (detect_groups cutoff uid txs) := by
    rw [ht0id]
    exact hidmem
  show (markIfMember uid now (memberIds (detect_groups cutoff uid txs)) t0).is_recurring = true
  unfold markIfMember
  rw [if_pos ⟨hu0, hi0⟩]
  rfl

/-- C6: `detect_recurring_transactions` groups the owner's transactions in
the trailing window that have a non-null counterparty by
`(counterparty, amount, day-of-month)`; exactly the keys with ≥ 2 members
yield groups, returned in descending member-count order, and every member's
`recurring` flag is persisted true.  In particular, three "Netflix"/199
transactions on the 5th of three months form one group of count 3 with all
three flags flipped, while a fourth 199 transaction with a different
counterparty stays outside the group and unflagged. -/
theorem c6_detect_recurring (cutoff now : DateTime) (uid : String) (txs : List Tx) :
    List.Sorted freqGe (detect_recurring_transactions cutoff now uid txs).1
    ∧ (∀ g ∈ (detect_recurring_transactions cutoff now uid txs).1,
        2 ≤ g.frequency ∧ g.frequency = g.transactions.length)
    ∧ (∀ k : String × ℚ × Nat,
        2 ≤ ((txs.filter (eligibleTx cutoff uid)).filter
              (fun t => decide (txKey t = k))).length
          ↔ ∃ g ∈ (detect_recurring_transactions cutoff now uid txs).1,
              g.merchant = k.1 ∧ g.amount = k.2.1 ∧ g.day_of_month = k.2.2
              ∧ g.frequency = ((txs.filter (eligibleTx cutoff uid)).filter
                  (fun t => decide (txKey t = k))).length
              ∧ g.transactions = ((txs.filter (eligibleTx cutoff uid)).filter
                  (fun t => decide (txKey t = k))).map txRefOf)
    ∧ (∀ t ∈ (detect_recurring_transactions cutoff now uid txs).2,
        t.user_id = uid →
        (∃ g ∈ (detect_recurring_transactions cutoff now uid txs).1,
          ∃ r ∈ g.transactions, r.id = t.id) →
        t.is_recurring = true)
    ∧ (detect_recurring_transactions recCutoff recNow "u" recTxs).1
        = [⟨"Netflix", 199, 5, 3,
            [⟨1, ⟨2025, 3, 5, 10, 0, 0⟩, 199⟩, ⟨2, ⟨2025, 4, 5, 10, 0, 0⟩, 199⟩,
             ⟨3, ⟨2025, 5, 5, 10, 0, 0⟩, 199⟩]⟩]
    ∧ ((detect_recurring_transactions recCutoff recNow "u" recTxs).2.map
        (fun t => (t.id, t.is_recurring)))
        = [(1, true), (2, true), (3, true), (4, false)] :=
  ⟨(c6_groups cutoff now uid txs).1,
   (c6_groups cutoff now uid txs).2,
   fun k => c6_key_iff cutoff now uid txs k,
   c6_flags cutoff now uid txs,
   by decide,
   by decide⟩

/-- C6, witness: the flag-setting conclusion of `c6_detect_recurring`
discharged on the concrete Netflix store — the first Netflix charge ends up
with `recurring = true`. -/
theorem c6_witness :
    (markRecurringTx recNow (sampleTx 1 "Netflix" 199 ⟨2025, 3, 5, 10, 0, 0⟩)).is_recurring
      = true :=
  (c6_detect_recurring recCutoff recNow "u" recTxs).2.2.2.1
    (markRecurringTx recNow (sampleTx 1 "Netflix" 199 ⟨2025, 3, 5, 10, 0, 0⟩))
    (by decide)
    (by decide)
    ⟨⟨"Netflix", 199, 5, 3,
      [⟨1, ⟨2025, 3, 5, 10, 0, 0⟩, 199⟩, ⟨2, ⟨2025, 4, 5, 10, 0, 0⟩, 199⟩,
       ⟨3, ⟨2025, 5, 5, 10, 0, 0⟩, 199⟩]⟩,
     by decide,
     ⟨1, ⟨2025, 3, 5, 10, 0, 0⟩, 199⟩,
     by decide,
     by decide⟩

end Pennywise
